import Mathlib

/-!
Shallow embedding of the 3DS rendering backend of TheXTech
(`src/core/3ds/render_3ds.cpp`) and of the world-file loader (`OpenWorld`),
together with theorems settling the specification's claims about them.

Modelling conventions:
* C `int` / `int16_t` arithmetic is modelled on `Int` (the values handled by
  the claims stay far inside the 16/32-bit ranges, so no wrap occurs);
  C integer division (truncation toward zero) is written `Int.tdiv`.
* Floating-point values that only ever hold small exact constants
  (the depth slider, the tint channels, the `shift_i` table) are modelled
  as rationals; the literal `0.4` becomes `2/5` and `0.05` becomes `1/20`.
* Backend calls (citro2d) are modelled by a `Backend` state record holding
  an oracle stream of sprite-sheet load results, a file-system oracle for
  the `.size` sidecar files, and counters of load / eviction / warning
  calls, plus the list of paths requested from `C2D_SpriteSheetLoad`.
* Drawing is modelled by emitting a trace of events (`Ev`); a draw call is
  one `Ev.drawTex` / `Ev.drawLayer` event.
-/

namespace XRender

/-- Render targets of the 3DS backend: the two top-screen eyes
(`s_top_screen`, `s_right_screen`), the bottom screen (`s_bottom_screen`)
and the four composition-layer targets (`s_layer_targets[i]`). -/
inductive Target where
  | top
  | right
  | bottom
  | layer (i : Nat)
  deriving DecidableEq

/-- Arguments of one `C2D_DrawImage_Custom` call issued by the sprite
dispatcher `minport_RenderTexturePrivate`; `img` is the backend handle of
the band texture drawn from. -/
structure DrawRec where
  img : Nat
  xDst : Int
  yDst : Int
  wDst : Int
  hDst : Int
  xSrc : Int
  ySrc : Int
  wSrc : Int
  hSrc : Int
  flip : Nat
  red : ℚ
  green : ℚ
  blue : ℚ
  alpha : ℚ
  deriving DecidableEq

/-- Arguments of one `C2D_DrawImage_Custom` call issued by `repaint` on a
composition layer image `s_layer_ims[layer]`. -/
structure LayerRec where
  layer : Nat
  xDst : Int
  yDst : Int
  wDst : Int
  hDst : Int
  xSrc : Int
  ySrc : Int
  wSrc : Int
  hSrc : Int
  flip : Nat
  red : ℚ
  green : ℚ
  blue : ℚ
  alpha : ℚ
  deriving DecidableEq

/-- Backend events emitted by the embedded renderer operations. -/
inductive Ev where
  | frameBegin
  | frameEnd
  | targetClear (t : Target)
  | sceneBegin (t : Target)
  | viewReset
  | applyViewport
  | drawLayer (d : LayerRec)
  | drawTex (d : DrawRec)
  | drawRect (x y w h : Int)
  | viewSave
  | viewTranslate (x y : Int)
  | viewRotate (angle : Int)
  | viewRestore
  deriving DecidableEq

/-- The draw calls contained in an event trace, in order. -/
def s_texDraws (evs : List Ev) : List DrawRec :=
  evs.filterMap fun e =>
    match e with
    | Ev.drawTex d => some d
    | _ => none

/-- The layer-composition draw calls contained in an event trace. -/
def s_layerDraws (evs : List Ev) : List LayerRec :=
  evs.filterMap fun e =>
    match e with
    | Ev.drawLayer d => some d
    | _ => none

/-- The physical targets selected (`C2D_SceneBegin`) in an event trace. -/
def s_sceneTargets (evs : List Ev) : List Target :=
  evs.filterMap fun e =>
    match e with
    | Ev.sceneBegin t => some t
    | _ => none

/-- Lazy-load bookkeeping of a texture resource (`StdPicture_l`): source
path and the deferred-upload flag. -/
structure StdPicture_l where
  path : String := ""
  lazyLoaded : Bool := false
  deriving DecidableEq

/-- Backend data of a texture resource (`StdPicture_d` in the 3DS build):
up to three sprite-sheet handles with their drawable image views, one per
1024-row band.  A handle is `none` when that band is not resident. -/
structure StdPicture_d where
  texture : Option Nat := none
  image : Nat := 0
  texture2 : Option Nat := none
  image2 : Nat := 0
  texture3 : Option Nat := none
  image3 : Nat := 0
  deriving DecidableEq

/-- The texture resource (`StdPicture`): `inited` flag, logical dimensions
and the per-band backend data. -/
structure StdPicture where
  inited : Bool := false
  w : Int := 0
  h : Int := 0
  frame_w : Int := 0
  frame_h : Int := 0
  l : StdPicture_l := {}
  d : StdPicture_d := {}
  deriving DecidableEq

/-- Result of one successful `C2D_SpriteSheetLoad`: the backend handle and
the sub-texture dimensions reported by `C2D_SpriteSheetGetImage`. -/
structure Sheet where
  id : Nat
  subtexW : Int
  subtexH : Int
  deriving DecidableEq

/-- Backend-world state seen by the texture loader: an oracle stream of
sprite-sheet load results (consumed one entry per `C2D_SpriteSheetLoad`
call), a file-system oracle for sidecar files, the uninitialised bytes of
the 10-byte stack buffer (`junk`), `linearSpaceFree` as a function of how
many eviction passes have run, and counters for loads / evictions /
warnings plus the list of paths requested from the sheet loader. -/
structure Backend where
  loads : List (Option Sheet)
  files : String → Option (List Nat)
  junk : List Nat
  freeFn : Nat → Nat
  evictCount : Nat
  loadCount : Nat
  warnCount : Nat
  loadReqs : List String

/-- One `C2D_SpriteSheetLoad(path)` call: consumes the next oracle entry
and records the requested path. -/
def s_c2dLoad (s : Backend) (path : String) : Option Sheet × Backend :=
  (s.loads.headD none,
   { s with loads := s.loads.tail
          , loadCount := s.loadCount + 1
          , loadReqs := s.loadReqs ++ [path] })

/-- The `linearSpaceFree()` query, a pure read in this model. -/
def s_linearSpaceFree (s : Backend) : Nat :=
  s.freeFn s.evictCount

/-- One `minport_freeTextureMemory()` global eviction pass. -/
def minport_freeTextureMemory (s : Backend) : Backend :=
  { s with evictCount := s.evictCount + 1 }

/-- One `pLogWarning` call (only the count is observable here). -/
def s_pLogWarning (s : Backend) : Backend :=
  { s with warnCount := s.warnCount + 1 }

end XRender

namespace XRender

/-- C `isspace` on a byte, as used by `atoi`: space (32) or the control
characters 9 to 13. -/
def c_isspace (c : Nat) : Prop :=
  c = 32 ∨ (9 ≤ c ∧ c ≤ 13)

instance (c : Nat) : Decidable (c_isspace c) := by
  unfold c_isspace
  infer_instance

/-- Digit-accumulation loop of C `atoi`: consume decimal digits, stop at
the first non-digit byte (or at the end of the buffer). -/
def s_atoiLoop : List Nat → Int → Int
  | [], acc => acc
  | c :: rest, acc =>
      if 48 ≤ c ∧ c ≤ 57 then s_atoiLoop rest (acc * 10 + ((c : Int) - 48))
      else acc

/-- Leading-whitespace skip of C `atoi`. -/
def s_skipSpace : List Nat → List Nat
  | [] => []
  | c :: rest => if c_isspace c then s_skipSpace rest else c :: rest

/-- Sign handling of C `atoi` after the whitespace skip: an optional
leading minus (45) or plus (43), then the digit loop. -/
def s_atoiSigned : List Nat → Int
  | [] => 0
  | c :: rest =>
      if c = 45 then - s_atoiLoop rest 0
      else if c = 43 then s_atoiLoop rest 0
      else s_atoiLoop (c :: rest) 0

/-- C `atoi` on a byte buffer (a NUL byte, like any other non-digit,
terminates the scan). -/
def c_atoi (l : List Nat) : Int :=
  s_atoiSigned (s_skipSpace l)

/-- The 10-byte buffer of `lazyLoadPicture` after `fread` (which fills
`min 10 content.length` bytes, the rest keeping the uninitialised stack
bytes `junk`) and after the two assignments `contents[4] = 0` and
`contents[9] = 0`. -/
def s_sizeBuf (content junk : List Nat) : List Nat :=
  ((content.take 10 ++ junk.take (10 - content.length)).set 4 0).set 9 0

/-- The four zero-padded ASCII digits of a number up to 9999, as written
in a `.size` sidecar file. -/
def s_digits4 (n : Nat) : List Nat :=
  [48 + n / 1000, 48 + n / 100 % 10, 48 + n / 10 % 10, 48 + n % 10]

/-- The exact 10-byte sidecar content for width `w` and height `h`:
four digits, newline, four digits, newline. -/
def s_sizeFileContent (w h : Nat) : List Nat :=
  s_digits4 w ++ [10] ++ s_digits4 h ++ [10]

/-- `s_loadTexture`: bind a loaded sheet as band 1 and, when no dimensions
were declared (`target.w == 0`), take them from the sub-texture (doubled). -/
def s_loadTexture (target : StdPicture) (sheet : Sheet) : StdPicture :=
  { target with
      d := { target.d with texture := some sheet.id, image := sheet.id }
      , w := if target.w = 0 then sheet.subtexW * 2 else target.w
      , h := if target.w = 0 then sheet.subtexH * 2 else target.h }

/-- `s_loadTexture2`: bind a loaded sheet as band 2. -/
def s_loadTexture2 (target : StdPicture) (sheet : Sheet) : StdPicture :=
  { target with d := { target.d with texture2 := some sheet.id, image2 := sheet.id } }

/-- `s_loadTexture3`: bind a loaded sheet as band 3. -/
def s_loadTexture3 (target : StdPicture) (sheet : Sheet) : StdPicture :=
  { target with d := { target.d with texture3 := some sheet.id, image3 := sheet.id } }

/-- `s_tryHardToLoadC2D_SpriteSheet`: one load attempt; on failure, an
eviction pass if free linear memory is below 4000000 bytes, then exactly
one retry. -/
def s_tryHardToLoadC2D_SpriteSheet (s : Backend) (path : String) :
    Option Sheet × Backend :=
  match s_c2dLoad s path with
  | (some sheet, s) => (some sheet, s)
  | (none, s) =>
      let s := if s_linearSpaceFree s < 4000000 then minport_freeTextureMemory s else s
      s_c2dLoad s path

/-- `lazyLoad`: upload a lazy resource now.  No-op unless the resource is
inited, lazy and not yet resident.  A permanent failure of the primary
sheet marks `inited := false`; overflow bands (`path+"1"` for heights
above 2048, `path+"2"` above 4096) are attempted but their failure only
logs warnings.  After a successful load, low free memory (below 4194304)
triggers an eviction pass. -/
def lazyLoad (s : Backend) (target : StdPicture) : StdPicture × Backend :=
  if !target.inited || !target.l.lazyLoaded || target.d.texture.isSome then
    (target, s)
  else
    match s_tryHardToLoadC2D_SpriteSheet s target.l.path with
    | (none, s) =>
        -- two pLogWarning calls ("Permanently failed to load", errno)
        ({ target with inited := false }, s_pLogWarning (s_pLogWarning s))
    | (some sheet, s) =>
        let target := s_loadTexture target sheet
        let band2 : StdPicture × Backend :=
          if target.h > 2048 then
            match s_tryHardToLoadC2D_SpriteSheet s (target.l.path ++ "1") with
            | (none, s) => (target, s_pLogWarning (s_pLogWarning s))
            | (some sh2, s) => (s_loadTexture2 target sh2, s)
          else (target, s)
        match band2 with
        | (target, s) =>
            let band3 : StdPicture × Backend :=
              if target.h > 4096 then
                -- note: band 3 uses a plain C2D_SpriteSheetLoad, no retry
                match s_c2dLoad s (target.l.path ++ "2") with
                | (none, s) => (target, s_pLogWarning (s_pLogWarning s))
                | (some sh3, s) => (s_loadTexture3 target sh3, s)
              else (target, s)
            match band3 with
            | (target, s) =>
                let s :=
                  if s_linearSpaceFree s < 4194304 then minport_freeTextureMemory s
                  else s
                (target, s)

/-- `deleteTexture`: release all backend handles; unless this is a lazy
unload, also clear the descriptor (dimensions and flags).  The intrusive
render-chain unlink (`minport_unlinkTexture`) touches no per-resource
field modelled here. -/
def deleteTexture (tx : StdPicture) (lazyUnload : Bool) : StdPicture :=
  if !tx.inited then tx
  else
    let tx := { tx with d := { tx.d with texture := none, texture2 := none, texture3 := none } }
    if !lazyUnload then
      { tx with inited := false, w := 0, h := 0, frame_w := 0, frame_h := 0
              , l := { tx.l with lazyLoaded := false } }
    else tx

/-- `lazyUnLoad`: release the backend handles of a resident lazy resource,
keeping its descriptor (dimensions, path, flags). -/
def lazyUnLoad (target : StdPicture) : StdPicture :=
  if !target.inited || !target.l.lazyLoaded || !target.d.texture.isSome then target
  else deleteTexture target true

/-- `lazyLoadPicture`: create a lazy resource for `path`, resolving only
its dimensions.  If the sidecar file `path + ".size"` opens, ten bytes are
read, NUL bytes are stored at offsets 4 and 9, and the dimensions are read
with `atoi` from offsets 0 and 5; otherwise the resource is loaded and
immediately unloaded to probe the dimensions. -/
def lazyLoadPicture (s : Backend) (path : String) (GameIsActive : Bool) :
    StdPicture × Backend :=
  let target : StdPicture := {}
  if !GameIsActive then (target, s)
  else
    let target := { target with inited := false, l := { target.l with path := path } }
    if target.l.path = "" then (target, s)
    else
      let target := { target with inited := true
                                , l := { target.l with lazyLoaded := true } }
      match s.files (path ++ ".size") with
      | some content =>
          let buf := s_sizeBuf content s.junk
          -- fclose is modelled as succeeding (its failure only logs)
          ({ target with w := c_atoi buf, h := c_atoi (buf.drop 5) }, s)
      | none =>
          let s := s_pLogWarning s
          match lazyLoad s target with
          | (target, s) => (lazyUnLoad target, s)

end XRender

namespace XRender

/-- The vertical-tiling compatibility loop of `minport_RenderTexturePrivate`:
`while(ySrc >= tx.h / 2 && mode < 3) { ySrc -= tx.h / 2; mode += 1; }`.
The fuel argument starts at 3, realizing the `mode < 3` bound. -/
def s_flipWrap : Nat → Int → Int → Nat → Int × Nat
  | 0, _, ySrc, mode => (ySrc, mode)
  | fuel + 1, half, ySrc, mode =>
      if half ≤ ySrc then s_flipWrap fuel half (ySrc - half) (mode + 1)
      else (ySrc, mode)

/-- The automatic SMBX-style flip quirk: wrap `ySrc` by the half logical
height up to 3 times and XOR the number of wraps into the flip bits. -/
def s_autoFlipQuirk (h ySrc : Int) (flip : Nat) : Int × Nat :=
  match s_flipWrap 3 (Int.tdiv h 2) ySrc 0 with
  | (ySrc, mode) => (ySrc, flip ^^^ mode)

/-- One `C2D_DrawImage_Custom` call of the dispatcher, or nothing when the
band pointer stayed null (`if(to_draw != nullptr)`). -/
def s_singleDraw (to_draw : Option Nat) (xDst yDst wDst hDst xSrc ySrc wSrc hSrc : Int)
    (flip : Nat) (red green blue alpha : ℚ) : List Ev :=
  match to_draw with
  | some img =>
      [Ev.drawTex ⟨img, xDst, yDst, wDst, hDst, xSrc, ySrc, wSrc, hSrc, flip,
                   red, green, blue, alpha⟩]
  | none => []

/-- The tail of the band-crossing path: draw the portion in the lower band
(`to_draw_2`) if its texture exists, shifting and shrinking the rectangles
for the remaining portion; when `to_draw_2` is null the source offset
drops by a band instead (`ySrc -= 1024`); then draw the remaining portion
from `to_draw` if that texture exists. -/
def s_splitDraw (to_draw to_draw_2 : Option Nat)
    (xDst yDst wDst hDst xSrc ySrc wSrc hSrc : Int)
    (flip : Nat) (red green blue alpha : ℚ) : List Ev :=
  match to_draw_2 with
  | some img2 =>
      let hDstCut := Int.tdiv ((1024 - ySrc) * hDst) hSrc
      Ev.drawTex ⟨img2, xDst, yDst, wDst, hDstCut, xSrc, ySrc, wSrc, 1024 - ySrc,
                  flip, red, green, blue, alpha⟩
        :: s_singleDraw to_draw xDst (yDst + hDstCut) wDst (hDst - hDstCut)
             xSrc 0 wSrc (hSrc - (1024 - ySrc)) flip red green blue alpha
  | none =>
      s_singleDraw to_draw xDst yDst wDst hDst xSrc (ySrc - 1024) wSrc hSrc
        flip red green blue alpha

/-- Band selection and drawing of `minport_RenderTexturePrivate`
(`render_3ds.cpp` lines 871-917): pick the backend textures covering the
source rectangle; a rectangle crossing a 1024-row band boundary is split
in two, and an absent band texture leaves its pointer null (skipped). -/
def s_bandDraws (tx : StdPicture) (xDst yDst wDst hDst xSrc ySrc wSrc hSrc : Int)
    (flip : Nat) (red green blue alpha : ℚ) : List Ev :=
  if ySrc + hSrc > 1024 then
    if ySrc + hSrc > 2048 then
      s_splitDraw
        (if tx.d.texture3.isSome then some tx.d.image3 else none)
        (if ySrc < 2048 ∧ tx.d.texture2.isSome then some tx.d.image2 else none)
        xDst yDst wDst hDst xSrc (ySrc - 1024) wSrc hSrc flip red green blue alpha
    else
      s_splitDraw
        (if tx.d.texture2.isSome then some tx.d.image2 else none)
        (if ySrc < 1024 then some tx.d.image else none)
        xDst yDst wDst hDst xSrc ySrc wSrc hSrc flip red green blue alpha
  else
    s_singleDraw (some tx.d.image) xDst yDst wDst hDst xSrc ySrc wSrc hSrc
      flip red green blue alpha

/-- Rotation pivot `cx` used by the dispatcher: `center->x / 2.0f + 0.5f`
truncated to `int16_t`, which on integer coordinates equals
`(x + 1) / 2` in truncating division. -/
def s_rotCenter (x : Int) : Int :=
  Int.tdiv (x + 1) 2

/-- The sprite-blit dispatcher `minport_RenderTexturePrivate`: skip
uninited resources, lazy-load on first use, drop the call if no texture is
resident, apply the automatic flip quirk, wrap the draw in a temporary
view rotation when an angle is given, and dispatch the band draws. -/
def minport_RenderTexturePrivate (s : Backend) (tx : StdPicture)
    (xDst yDst wDst hDst xSrc ySrc wSrc hSrc : Int)
    (rotateAngle : Int) (center : Option (Int × Int)) (flip : Nat)
    (red green blue alpha : ℚ) : Backend × StdPicture × List Ev :=
  if !tx.inited then (s, tx, [])
  else
    let loaded : StdPicture × Backend :=
      if !tx.d.texture.isSome && tx.l.lazyLoaded then lazyLoad s tx else (tx, s)
    match loaded with
    | (tx, s) =>
        if !tx.d.texture.isSome then (s, tx, [])
        else
          match s_autoFlipQuirk tx.h ySrc flip with
          | (ySrc, flip) =>
              if rotateAngle ≠ 0 then
                let cx := match center with
                  | some c => s_rotCenter c.1
                  | none => Int.tdiv wDst 2
                let cy := match center with
                  | some c => s_rotCenter c.2
                  | none => Int.tdiv hDst 2
                (s, tx,
                 Ev.viewSave :: Ev.viewTranslate (xDst + cx) (yDst + cy)
                   :: Ev.viewRotate rotateAngle
                   :: s_bandDraws tx (-cx) (-cy) wDst hDst xSrc ySrc wSrc hSrc
                        flip red green blue alpha
                   ++ [Ev.viewRestore])
              else
                (s, tx,
                 s_bandDraws tx xDst yDst wDst hDst xSrc ySrc wSrc hSrc
                   flip red green blue alpha)

end XRender

namespace XRender

/-- The globals of the frame controller and composition stage:
frame counter, depth-slider cache, the in-frame and screen-swap flags,
single-layer mode, the layer sub-texture extents shown during composition
(`s_tex_show_w`, `s_tex_h`) and the currently selected target. -/
structure RState where
  s_current_frame : Nat
  s_depth_slider : ℚ
  g_in_frame : Bool
  g_screen_swapped : Bool
  s_single_layer_mode : Bool
  s_tex_show_w : Int
  s_tex_h : Int
  s_cur_target : Option Target

/-- External inputs read by `repaint`: the 3D slider state, the editor
flags and the physical layout of the logical screen. -/
structure RInputs where
  slider : ℚ
  LevelEditor : Bool
  MagicHand : Bool
  editorActive : Bool
  phys_x : Int
  phys_y : Int
  phys_w : Int
  phys_h : Int

/-- A `for(layer = 0; layer < 4; ...)` loop body run over the layers, with
the `if(s_single_layer_mode) break;` cut after the first iteration. -/
def s_layerLoop (single : Bool) (f : Nat → Ev) : List Ev :=
  if single then [f 0] else [f 0, f 1, f 2, f 3]

/-- `s_ensureInFrame`: when idle, begin a backend frame, clear every
active composition layer and the bottom screen to transparent black, and
raise the in-frame flag.  (`minport_initFrame` updates no state modelled
here.) -/
def s_ensureInFrame (st : RState) : RState × List Ev :=
  if st.g_in_frame then (st, [])
  else
    ({ st with g_in_frame := true },
     Ev.frameBegin
       :: s_layerLoop st.s_single_layer_mode (fun l => Ev.targetClear (Target.layer l))
       ++ [Ev.targetClear Target.bottom])

/-- `setTargetTexture`: select the screen-plane layer (layer 2, or layer 0
in single-layer mode). -/
def setTargetTexture (st : RState) : RState × List Ev :=
  match s_ensureInFrame st with
  | (st, evs) =>
      let t := if !st.s_single_layer_mode then Target.layer 2 else Target.layer 0
      ({ st with s_cur_target := some t },
       evs ++ [Ev.sceneBegin t, Ev.viewReset])

/-- `setTargetMainScreen`: clear and select the top screen. -/
def setTargetMainScreen (st : RState) : RState × List Ev :=
  match s_ensureInFrame st with
  | (st, evs) =>
      ({ st with s_cur_target := some Target.top },
       evs ++ [Ev.targetClear Target.top, Ev.sceneBegin Target.top, Ev.viewReset])

/-- `setTargetSubScreen`: clear and select the bottom screen. -/
def setTargetSubScreen (st : RState) : RState × List Ev :=
  match s_ensureInFrame st with
  | (st, evs) =>
      ({ st with s_cur_target := some Target.bottom },
       evs ++ [Ev.targetClear Target.bottom, Ev.sceneBegin Target.bottom, Ev.viewReset])

/-- `setTargetLayer`: select a numbered composition layer (layer 0 in
single-layer mode), then apply the viewport. -/
def setTargetLayer (st : RState) (layer : Nat) : RState × List Ev :=
  match s_ensureInFrame st with
  | (st, evs) =>
      let t := if !st.s_single_layer_mode then Target.layer layer else Target.layer 0
      ({ st with s_cur_target := some t },
       evs ++ [Ev.sceneBegin t, Ev.applyViewport])

/-- `clearBuffer`: outside a frame, clear and black-fill all three
physical screens in a self-contained backend frame.  The frame flag and
counter are untouched. -/
def clearBuffer (st : RState) : RState × List Ev :=
  if !st.g_in_frame then
    (st,
     [Ev.frameBegin, Ev.viewReset,
      Ev.targetClear Target.top, Ev.sceneBegin Target.top, Ev.drawRect 0 0 400 240,
      Ev.targetClear Target.right, Ev.sceneBegin Target.right, Ev.drawRect 0 0 400 240,
      Ev.targetClear Target.bottom, Ev.sceneBegin Target.bottom, Ev.drawRect 0 0 320 240,
      Ev.frameEnd])
  else (st, [])

/-- The `constexpr int shift = 0` base stereoscopic shift of `repaint`. -/
def s_repaint_shift : Int := 0

/-- The `constexpr double shift_i[] = {shift, shift * 0.4, 0, shift * -0.4}`
per-layer shift table of `repaint` (the double literal `0.4` is the
rational `2/5`; with `shift = 0` every entry is exactly zero either way). -/
def s_repaint_shift_i (layer : Nat) : ℚ :=
  match layer with
  | 0 => (s_repaint_shift : ℚ)
  | 1 => (s_repaint_shift : ℚ) * (2 / 5)
  | 2 => 0
  | _ => (s_repaint_shift : ℚ) * (-(2 / 5))

/-- The per-layer multipliers named by the specification for the stereo
branch: layers 0 to 3 use `{1, 0.4, 0, -0.4}` times the base shift. -/
def s_claimMultiplier (layer : Nat) : ℚ :=
  match layer with
  | 0 => 1
  | 1 => 2 / 5
  | 2 => 0
  | _ => -(2 / 5)

/-- A C cast `(int)q` of a rational: truncation toward zero. -/
def c_truncInt (q : ℚ) : Int :=
  Int.tdiv q.num (q.den : Int)

/-- Left-eye horizontal source offset of a layer in the stereo branch:
`shift + (int)(shift_i[layer] * s_depth_slider)`. -/
def s_stereoTop (slider : ℚ) (layer : Nat) : Int :=
  s_repaint_shift + c_truncInt (s_repaint_shift_i layer * slider)

/-- Right-eye horizontal source offset of a layer in the stereo branch:
`shift - (int)(shift_i[layer] * s_depth_slider)`. -/
def s_stereoRight (slider : ℚ) (layer : Nat) : Int :=
  s_repaint_shift - c_truncInt (s_repaint_shift_i layer * slider)

/-- A composition draw of one layer image during `repaint`:
un-tinted, un-flipped, full sub-texture extent, at the given destination
and horizontal source offset. -/
def s_compositeDraw (st : RState) (inp : RInputs) (xDst : Int) (srcX : Int)
    (layer : Nat) : Ev :=
  Ev.drawLayer ⟨layer, xDst, inp.phys_y, inp.phys_w, inp.phys_h,
                srcX, 0, st.s_tex_show_w, st.s_tex_h, 0, 1, 1, 1, 1⟩

/-- `repaint` (`render_3ds.cpp` lines 321-436): end-of-frame composition.
A call outside a frame returns immediately.  Otherwise the depth slider is
latched, the current target is dropped, one of the five presentation
branches composites the layer images onto physical screens, the frame
counter advances and the in-frame flag falls. -/
def repaint (st : RState) (inp : RInputs) : RState × List Ev :=
  if !st.g_in_frame then (st, [])
  else
    let st := { st with s_depth_slider := inp.slider, s_cur_target := none }
    let evs : List Ev :=
      if st.g_screen_swapped ∧ (inp.LevelEditor ∨ inp.MagicHand) ∧ inp.editorActive then
        Ev.targetClear Target.top :: Ev.sceneBegin Target.top
          :: s_layerLoop st.s_single_layer_mode
               (s_compositeDraw st inp (inp.phys_x + 40) s_repaint_shift)
      else if st.g_screen_swapped then
        Ev.targetClear Target.bottom :: Ev.sceneBegin Target.bottom
          :: s_layerLoop st.s_single_layer_mode
               (s_compositeDraw st inp inp.phys_x s_repaint_shift)
      else if inp.LevelEditor ∧ ¬inp.editorActive then
        Ev.targetClear Target.bottom :: Ev.sceneBegin Target.bottom
          :: s_layerLoop st.s_single_layer_mode
               (s_compositeDraw st inp (inp.phys_x - 40) s_repaint_shift)
      else if st.s_depth_slider ≤ 1 / 20 ∨ st.s_single_layer_mode then
        Ev.targetClear Target.top :: Ev.sceneBegin Target.top
          :: s_layerLoop st.s_single_layer_mode
               (s_compositeDraw st inp inp.phys_x s_repaint_shift)
      else
        Ev.targetClear Target.top :: Ev.sceneBegin Target.top
          :: [0, 1, 2, 3].map
               (fun l => s_compositeDraw st inp inp.phys_x (s_stereoTop st.s_depth_slider l) l)
          ++ Ev.targetClear Target.right :: Ev.sceneBegin Target.right
          :: [0, 1, 2, 3].map
               (fun l => s_compositeDraw st inp inp.phys_x (s_stereoRight st.s_depth_slider l) l)
    ({ st with s_current_frame := st.s_current_frame + 1, g_in_frame := false },
     evs ++ [Ev.frameEnd])

end XRender

namespace World

/-- One parsed world-map entity as supplied by the file-format library;
only its existence drives the copy loops of `OpenWorld`, the copied
field values play no role in the bounds claim. -/
structure WorldObj where
  x : Int := 0
  y : Int := 0
  id : Nat := 0
  deriving DecidableEq

/-- The parsed world file: the five entity lists iterated by `OpenWorld`. -/
structure WorldData where
  tiles : List WorldObj := []
  scenery : List WorldObj := []
  paths : List WorldObj := []
  levels : List WorldObj := []
  music : List WorldObj := []

/-- One `OpenWorld` copy loop:
`num++; if(num > maxN) { num = maxN; break; } Array[num] = ...;`
run over an entity list starting from counter value `num`; returns the
final counter and the array indices written, in order. -/
def s_worldFillLoop (maxN : Nat) : Nat → List WorldObj → Nat × List Nat
  | num, [] => (num, [])
  | num, _ :: rest =>
      if num + 1 > maxN then (maxN, [])
      else
        match s_worldFillLoop maxN (num + 1) rest with
        | (n, ws) => (n, (num + 1) :: ws)

/-- The counters and array writes performed by `OpenWorld`. -/
structure WorldState where
  numTiles : Nat
  numScenes : Nat
  numWorldPaths : Nat
  numWorldLevels : Nat
  numWorldMusic : Nat
  tileWrites : List Nat
  sceneWrites : List Nat
  pathWrites : List Nat
  levelWrites : List Nat
  musicWrites : List Nat

/-- `OpenWorld`: after `ClearWorld` and the explicit zeroing of the five
counters, copy each entity list into its fixed-size array through the
clamped counter loop.  The maxima are the global constants `maxTiles`,
`maxScenes`, `maxWorldPaths`, `maxWorldLevels`, `maxWorldMusic`
(declared outside the provided sources), taken here as parameters. -/
def OpenWorld (maxTiles maxScenes maxWorldPaths maxWorldLevels maxWorldMusic : Nat)
    (wld : WorldData) : WorldState :=
  match s_worldFillLoop maxTiles 0 wld.tiles with
  | (numTiles, tileWrites) =>
  match s_worldFillLoop maxScenes 0 wld.scenery with
  | (numScenes, sceneWrites) =>
  match s_worldFillLoop maxWorldPaths 0 wld.paths with
  | (numWorldPaths, pathWrites) =>
  match s_worldFillLoop maxWorldLevels 0 wld.levels with
  | (numWorldLevels, levelWrites) =>
  match s_worldFillLoop maxWorldMusic 0 wld.music with
  | (numWorldMusic, musicWrites) =>
      ⟨numTiles, numScenes, numWorldPaths, numWorldLevels, numWorldMusic,
       tileWrites, sceneWrites, pathWrites, levelWrites, musicWrites⟩

end World

namespace XRender

lemma xor_one_ne (flip : Nat) : flip ^^^ 1 ≠ flip := by
  intro hEq
  have h2 : flip ^^^ 1 = flip ^^^ 0 := by simpa using hEq
  exact absurd (Nat.xor_right_inj.mp h2) (by decide)

lemma xor_two_ne (flip : Nat) : flip ^^^ 2 ≠ flip := by
  intro hEq
  have h2 : flip ^^^ 2 = flip ^^^ 0 := by simpa using hEq
  exact absurd (Nat.xor_right_inj.mp h2) (by decide)

/-- Claim C9: a `lazyLoad` (ensureResident) call on a resource whose
backend texture is already bound returns immediately: no load attempt, no
eviction pass, and both the resource and the backend state are unchanged
— the call is idempotent on resident resources. -/
theorem claim_C9_lazyLoad_resident_noop (s : Backend) (tx : StdPicture) (t : Nat)
    (hres : tx.d.texture = some t) : lazyLoad s tx = (tx, s) := by
  simp [lazyLoad, hres]

def c9_tx : StdPicture :=
  { inited := true, w := 64, h := 64
  , l := { path := "gfx", lazyLoaded := true }
  , d := { texture := some 5, image := 5 } }

def c9_backend : Backend :=
  { loads := [some ⟨6, 16, 16⟩], files := fun _ => none, junk := []
  , freeFn := fun _ => 9000000, evictCount := 0, loadCount := 0
  , warnCount := 0, loadReqs := [] }

theorem claim_C9_witness : lazyLoad c9_backend c9_tx = (c9_tx, c9_backend) :=
  claim_C9_lazyLoad_resident_noop c9_backend c9_tx 5 rfl

end XRender

namespace World

lemma s_worldFillLoop_bounds (maxN : Nat) (items : List WorldObj) :
    ∀ num : Nat, num ≤ maxN →
      (s_worldFillLoop maxN num items).1 ≤ maxN ∧
        ∀ i ∈ (s_worldFillLoop maxN num items).2, num < i ∧ i ≤ maxN := by
  induction items with
  | nil => intro num h; simp [s_worldFillLoop, h]
  | cons hd tl ih =>
      intro num h
      rw [s_worldFillLoop]
      by_cases hc : num + 1 > maxN
      · simp [hc]
      · have h' : num + 1 ≤ maxN := by omega
        obtain ⟨h1, h2⟩ := ih (num + 1) h'
        rcases hrec : s_worldFillLoop maxN (num + 1) tl with ⟨n, ws⟩
        rw [hrec] at h1 h2
        simp only [hc, if_false, hrec]
        refine ⟨h1, ?_⟩
        intro i hi
        rcases List.mem_cons.mp hi with h | h
        · omega
        · have := h2 i h
          omega

/-- Claim C10: whatever entity lists the world file supplies, `OpenWorld`
writes the `Tile`, `Scene`, `WorldPath`, `WorldLevel` and `WorldMusic`
arrays only at indices between 1 and the corresponding fixed maximum, and
each of the five counters is at most its maximum on return. -/
theorem claim_C10_OpenWorld_bounds
    (maxTiles maxScenes maxWorldPaths maxWorldLevels maxWorldMusic : Nat)
    (wld : WorldData) :
    (OpenWorld maxTiles maxScenes maxWorldPaths maxWorldLevels maxWorldMusic wld).numTiles ≤ maxTiles ∧
    (OpenWorld maxTiles maxScenes maxWorldPaths maxWorldLevels maxWorldMusic wld).numScenes ≤ maxScenes ∧
    (OpenWorld maxTiles maxScenes maxWorldPaths maxWorldLevels maxWorldMusic wld).numWorldPaths ≤ maxWorldPaths ∧
    (OpenWorld maxTiles maxScenes maxWorldPaths maxWorldLevels maxWorldMusic wld).numWorldLevels ≤ maxWorldLevels ∧
    (OpenWorld maxTiles maxScenes maxWorldPaths maxWorldLevels maxWorldMusic wld).numWorldMusic ≤ maxWorldMusic ∧
    (∀ i ∈ (OpenWorld maxTiles maxScenes maxWorldPaths maxWorldLevels maxWorldMusic wld).tileWrites, 1 ≤ i ∧ i ≤ maxTiles) ∧
    (∀ i ∈ (OpenWorld maxTiles maxScenes maxWorldPaths maxWorldLevels maxWorldMusic wld).sceneWrites, 1 ≤ i ∧ i ≤ maxScenes) ∧
    (∀ i ∈ (OpenWorld maxTiles maxScenes maxWorldPaths maxWorldLevels maxWorldMusic wld).pathWrites, 1 ≤ i ∧ i ≤ maxWorldPaths) ∧
    (∀ i ∈ (OpenWorld maxTiles maxScenes maxWorldPaths maxWorldLevels maxWorldMusic wld).levelWrites, 1 ≤ i ∧ i ≤ maxWorldLevels) ∧
    (∀ i ∈ (OpenWorld maxTiles maxScenes maxWorldPaths maxWorldLevels maxWorldMusic wld).musicWrites, 1 ≤ i ∧ i ≤ maxWorldMusic) := by
  have ht := s_worldFillLoop_bounds maxTiles wld.tiles 0 (Nat.zero_le _)
  have hs := s_worldFillLoop_bounds maxScenes wld.scenery 0 (Nat.zero_le _)
  have hp := s_worldFillLoop_bounds maxWorldPaths wld.paths 0 (Nat.zero_le _)
  have hl := s_worldFillLoop_bounds maxWorldLevels wld.levels 0 (Nat.zero_le _)
  have hm := s_worldFillLoop_bounds maxWorldMusic wld.music 0 (Nat.zero_le _)
  rcases e1 : s_worldFillLoop maxTiles 0 wld.tiles with ⟨n1, w1⟩
  rcases e2 : s_worldFillLoop maxScenes 0 wld.scenery with ⟨n2, w2⟩
  rcases e3 : s_worldFillLoop maxWorldPaths 0 wld.paths with ⟨n3, w3⟩
  rcases e4 : s_worldFillLoop maxWorldLevels 0 wld.levels with ⟨n4, w4⟩
  rcases e5 : s_worldFillLoop maxWorldMusic 0 wld.music with ⟨n5, w5⟩
  rw [e1] at ht; rw [e2] at hs; rw [e3] at hp; rw [e4] at hl; rw [e5] at hm
  simp only [OpenWorld, e1, e2, e3, e4, e5]
  exact ⟨ht.1, hs.1, hp.1, hl.1, hm.1,
    fun i hi => ⟨(ht.2 i hi).1, (ht.2 i hi).2⟩,
    fun i hi => ⟨(hs.2 i hi).1, (hs.2 i hi).2⟩,
    fun i hi => ⟨(hp.2 i hi).1, (hp.2 i hi).2⟩,
    fun i hi => ⟨(hl.2 i hi).1, (hl.2 i hi).2⟩,
    fun i hi => ⟨(hm.2 i hi).1, (hm.2 i hi).2⟩⟩

def c10_wld : WorldData :=
  { tiles := [{}, {}, {}, {}], scenery := [{}], paths := [], levels := [{}, {}], music := [{}] }

theorem claim_C10_witness :
    (OpenWorld 2 2 2 2 2 c10_wld).numTiles ≤ 2 ∧
      ∀ i ∈ (OpenWorld 2 2 2 2 2 c10_wld).tileWrites, 1 ≤ i ∧ i ≤ 2 :=
  ⟨(claim_C10_OpenWorld_bounds 2 2 2 2 2 c10_wld).1,
   (claim_C10_OpenWorld_bounds 2 2 2 2 2 c10_wld).2.2.2.2.2.1⟩

end World

namespace XRender

def c5_backend : Backend :=
  { loads := [none, none], files := fun _ => none, junk := []
  , freeFn := fun _ => 4000000, evictCount := 0, loadCount := 0
  , warnCount := 0, loadReqs := [] }

def c5_tx : StdPicture :=
  { inited := true, w := 100, h := 100
  , l := { path := "p", lazyLoaded := true } }

/-- Claim C5 counterexample: with both load attempts failing while
4000000 bytes of linear memory are free, `lazyLoad` performs its single
retry and gives up (`inited = false`) WITHOUT ever triggering an eviction
pass — refuting the claim that every upload failure triggers a global
eviction pass before the retry. -/
theorem claim_C5_counterexample :
    (lazyLoad c5_backend c5_tx).2.evictCount = 0 ∧
    (lazyLoad c5_backend c5_tx).2.loadCount = 2 ∧
    (lazyLoad c5_backend c5_tx).1.inited = false := by
  refine ⟨rfl, rfl, rfl⟩

/-- Claim C5 as amended: when the primary upload fails, `lazyLoad` retries
exactly once (two load attempts of the same path, never more), triggering
the global eviction pass before the retry only when free linear memory is
below 4000000 bytes (at most one eviction); if the retry also fails the
resource is permanently marked `inited = false`, and every later
`lazyLoad` call on it is a no-op. -/
theorem claim_C5_amended (s : Backend) (tgt : StdPicture) (rest : List (Option Sheet))
    (hinit : tgt.inited = true) (hlazy : tgt.l.lazyLoaded = true)
    (htex : tgt.d.texture = none) (hloads : s.loads = none :: none :: rest) :
    (lazyLoad s tgt).1.inited = false ∧
    (lazyLoad s tgt).2.loadCount = s.loadCount + 2 ∧
    (lazyLoad s tgt).2.loadReqs = s.loadReqs ++ [tgt.l.path, tgt.l.path] ∧
    (lazyLoad s tgt).2.evictCount =
      s.evictCount + (if s.freeFn s.evictCount < 4000000 then 1 else 0) ∧
    (∀ s2 : Backend, lazyLoad s2 (lazyLoad s tgt).1 = ((lazyLoad s tgt).1, s2)) := by
  by_cases hf : s.freeFn s.evictCount < 4000000
  · simp [lazyLoad, s_tryHardToLoadC2D_SpriteSheet, s_c2dLoad, s_linearSpaceFree,
      minport_freeTextureMemory, s_pLogWarning, hloads, hinit, hlazy, htex, hf]
  · simp [lazyLoad, s_tryHardToLoadC2D_SpriteSheet, s_c2dLoad, s_linearSpaceFree,
      minport_freeTextureMemory, s_pLogWarning, hloads, hinit, hlazy, htex, hf]

def c5w_backend : Backend :=
  { loads := [none, none], files := fun _ => none, junk := []
  , freeFn := fun _ => 1000, evictCount := 0, loadCount := 0
  , warnCount := 0, loadReqs := [] }

theorem claim_C5_amended_witness :
    (lazyLoad c5w_backend c5_tx).1.inited = false ∧
    (lazyLoad c5w_backend c5_tx).2.loadCount = 0 + 2 ∧
    (lazyLoad c5w_backend c5_tx).2.evictCount =
      0 + (if c5w_backend.freeFn 0 < 4000000 then 1 else 0) := by
  have h := claim_C5_amended c5w_backend c5_tx [] rfl rfl rfl rfl
  exact ⟨h.1, h.2.1, h.2.2.2.1⟩

/-- Claim C7: a lazy resource with declared height above 2048 loads a
second file named `path + "1"` as the overflow band (and above 4096 also
`path + "2"` as the third); a missing overflow file costs exactly two
warning log calls, leaves that band's handle null and the resource still
inited, and the bands that did load stay bound. -/
theorem claim_C7_overflow_bands :
    (∀ (s : Backend) (tgt : StdPicture) (sh : Sheet) (rest : List (Option Sheet)),
       tgt.inited = true → tgt.l.lazyLoaded = true → tgt.d.texture = none →
       tgt.d.texture2 = none → tgt.d.texture3 = none → tgt.w ≠ 0 →
       2048 < tgt.h → tgt.h ≤ 4096 →
       s.loads = some sh :: none :: none :: rest →
       (∀ n, 4194304 ≤ s.freeFn n) →
       (lazyLoad s tgt).1.inited = true ∧
       (lazyLoad s tgt).1.d.texture = some sh.id ∧
       (lazyLoad s tgt).1.d.texture2 = none ∧
       (lazyLoad s tgt).1.d.texture3 = none ∧
       (lazyLoad s tgt).1.w = tgt.w ∧
       (lazyLoad s tgt).1.h = tgt.h ∧
       (lazyLoad s tgt).2.loadReqs =
         s.loadReqs ++ [tgt.l.path, tgt.l.path ++ "1", tgt.l.path ++ "1"] ∧
       (lazyLoad s tgt).2.warnCount = s.warnCount + 2 ∧
       (lazyLoad s tgt).2.evictCount = s.evictCount) ∧
    (∀ (s : Backend) (tgt : StdPicture) (sh sh2 : Sheet) (rest : List (Option Sheet)),
       tgt.inited = true → tgt.l.lazyLoaded = true → tgt.d.texture = none →
       tgt.d.texture2 = none → tgt.d.texture3 = none → tgt.w ≠ 0 →
       4096 < tgt.h →
       s.loads = some sh :: some sh2 :: none :: rest →
       (∀ n, 4194304 ≤ s.freeFn n) →
       (lazyLoad s tgt).1.inited = true ∧
       (lazyLoad s tgt).1.d.texture = some sh.id ∧
       (lazyLoad s tgt).1.d.texture2 = some sh2.id ∧
       (lazyLoad s tgt).1.d.texture3 = none ∧
       (lazyLoad s tgt).2.loadReqs =
         s.loadReqs ++ [tgt.l.path, tgt.l.path ++ "1", tgt.l.path ++ "2"] ∧
       (lazyLoad s tgt).2.warnCount = s.warnCount + 2 ∧
       (lazyLoad s tgt).2.evictCount = s.evictCount) := by
  constructor
  · intro s tgt sh rest hinit hlazy htex htex2 htex3 hw hh1 hh2 hloads hmem
    have hm1 : ¬ s.freeFn s.evictCount < 4000000 := by have := hmem s.evictCount; omega
    have hm2 : ¬ s.freeFn s.evictCount < 4194304 := by have := hmem s.evictCount; omega
    simp [lazyLoad, s_tryHardToLoadC2D_SpriteSheet, s_c2dLoad, s_linearSpaceFree,
      minport_freeTextureMemory, s_pLogWarning, s_loadTexture, s_loadTexture2,
      s_loadTexture3, hloads, hinit, hlazy, htex, htex2, htex3, hw, hm1, hm2,
      show tgt.h > 2048 by omega, show ¬ tgt.h > 4096 by omega]
  · intro s tgt sh sh2 rest hinit hlazy htex htex2 htex3 hw hh1 hloads hmem
    have hm2 : ¬ s.freeFn s.evictCount < 4194304 := by have := hmem s.evictCount; omega
    simp [lazyLoad, s_tryHardToLoadC2D_SpriteSheet, s_c2dLoad, s_linearSpaceFree,
      minport_freeTextureMemory, s_pLogWarning, s_loadTexture, s_loadTexture2,
      s_loadTexture3, hloads, hinit, hlazy, htex, htex2, htex3, hw, hm2,
      show tgt.h > 2048 by omega, show tgt.h > 4096 by omega]

def c7_backend : Backend :=
  { loads := [some ⟨11, 500, 1024⟩, none, none], files := fun _ => none, junk := []
  , freeFn := fun _ => 9000000, evictCount := 0, loadCount := 0
  , warnCount := 0, loadReqs := [] }

def c7_tx : StdPicture :=
  { inited := true, w := 1000, h := 3000
  , l := { path := "big", lazyLoaded := true } }

theorem claim_C7_witness :
    (lazyLoad c7_backend c7_tx).1.inited = true ∧
    (lazyLoad c7_backend c7_tx).1.d.texture = some 11 ∧
    (lazyLoad c7_backend c7_tx).1.d.texture2 = none ∧
    (lazyLoad c7_backend c7_tx).2.loadReqs = [] ++ ["big", "big" ++ "1", "big" ++ "1"] := by
  have h := claim_C7_overflow_bands.1 c7_backend c7_tx ⟨11, 500, 1024⟩ []
    rfl rfl rfl rfl rfl (by decide) (by decide) (by decide) rfl
    (by intro n; show (4194304 : Nat) ≤ 9000000; decide)
  exact ⟨h.1, h.2.1, h.2.2.1, h.2.2.2.2.2.2.1⟩

end XRender

namespace XRender

lemma s_atoiLoop_digits (a b c d : Nat) (rest : List Nat) (acc : Int)
    (ha : a ≤ 9) (hb : b ≤ 9) (hc : c ≤ 9) (hd : d ≤ 9) :
    s_atoiLoop ((48 + a) :: (48 + b) :: (48 + c) :: (48 + d) :: 0 :: rest) acc =
      acc * 10000 + (1000 * a + 100 * b + 10 * c + d : Nat) := by
  rw [s_atoiLoop, if_pos (by omega), s_atoiLoop, if_pos (by omega),
      s_atoiLoop, if_pos (by omega), s_atoiLoop, if_pos (by omega),
      s_atoiLoop, if_neg (by omega)]
  push_cast
  ring

lemma c_atoi_digits (a b c d : Nat) (rest : List Nat)
    (ha : a ≤ 9) (hb : b ≤ 9) (hc : c ≤ 9) (hd : d ≤ 9) :
    c_atoi ((48 + a) :: (48 + b) :: (48 + c) :: (48 + d) :: 0 :: rest) =
      (1000 * a + 100 * b + 10 * c + d : Nat) := by
  rw [c_atoi, s_skipSpace, if_neg (by unfold c_isspace; omega)]
  rw [s_atoiSigned, if_neg (by omega), if_neg (by omega)]
  rw [s_atoiLoop_digits a b c d rest 0 ha hb hc hd]
  ring

lemma c_atoi_digits4 (W : Nat) (rest : List Nat) (hW : W ≤ 9999) :
    c_atoi ((48 + W / 1000) :: (48 + W / 100 % 10) :: (48 + W / 10 % 10)
        :: (48 + W % 10) :: 0 :: rest) = (W : Int) := by
  rw [c_atoi_digits _ _ _ _ rest (by omega) (by omega) (by omega) (by omega)]
  congr 1
  omega

lemma s_sizeBuf_digits (W H : Nat) (junk : List Nat) :
    s_sizeBuf (s_sizeFileContent W H) junk =
      (48 + W / 1000) :: (48 + W / 100 % 10) :: (48 + W / 10 % 10) :: (48 + W % 10)
        :: 0 :: (48 + H / 1000) :: (48 + H / 100 % 10) :: (48 + H / 10 % 10)
        :: (48 + H % 10) :: 0 :: [] := by
  rfl

/-- Claim C4: a sidecar file `path + ".size"` holding exactly the ten
bytes W (4 zero-padded digits), newline, H (4 zero-padded digits), newline
makes `lazyLoadPicture` produce a lazy resource with dimensions exactly
(W, H), with no backend texture bound and no load call issued (the whole
backend state is untouched). -/
theorem claim_C4_sidecar_roundtrip (s : Backend) (path : String) (W H : Nat)
    (hpath : path ≠ "") (hW : W ≤ 9999) (hH : H ≤ 9999)
    (hfile : s.files (path ++ ".size") = some (s_sizeFileContent W H)) :
    (lazyLoadPicture s path true).1.w = (W : Int) ∧
    (lazyLoadPicture s path true).1.h = (H : Int) ∧
    (lazyLoadPicture s path true).1.d.texture = none ∧
    (lazyLoadPicture s path true).1.d.texture2 = none ∧
    (lazyLoadPicture s path true).1.d.texture3 = none ∧
    (lazyLoadPicture s path true).1.inited = true ∧
    (lazyLoadPicture s path true).1.l.lazyLoaded = true ∧
    (lazyLoadPicture s path true).2 = s := by
  refine ⟨?_, ?_, ?_, ?_, ?_, ?_, ?_, ?_⟩ <;>
    simp [lazyLoadPicture, hpath, hfile, s_sizeBuf_digits, c_atoi_digits4 W _ hW]
  exact c_atoi_digits4 H [] hH

def c4_backend : Backend :=
  { loads := [], files := fun p => if p = "img.size" then some (s_sizeFileContent 320 1500) else none
  , junk := [77, 77, 77], freeFn := fun _ => 0, evictCount := 0, loadCount := 0
  , warnCount := 0, loadReqs := [] }

theorem claim_C4_witness :
    (lazyLoadPicture c4_backend "img" true).1.w = (320 : Int) ∧
    (lazyLoadPicture c4_backend "img" true).1.h = (1500 : Int) ∧
    (lazyLoadPicture c4_backend "img" true).1.d.texture = none := by
  have h := claim_C4_sidecar_roundtrip c4_backend "img" 320 1500 (by decide)
    (by decide) (by decide) (by decide)
  exact ⟨h.1, h.2.1, h.2.2.1⟩

def c8_backend : Backend :=
  { loads := [some ⟨7, 16, 16⟩]
  , files := fun p => if p = "a.size" then some (List.replicate 10 88) else none
  , junk := [], freeFn := fun _ => 9000000, evictCount := 0, loadCount := 0
  , warnCount := 0, loadReqs := [] }

/-- Claim C8 counterexample: a present but malformed sidecar (ten bytes
88, the letter X) does NOT trigger the load-and-unload probe fallback —
`lazyLoadPicture` simply stores the `atoi` garbage (0, 0) and issues no
load call, while the same backend with the sidecar absent (path "b") does
run the probe (one load call, real dimensions 32). -/
theorem claim_C8_counterexample :
    ((lazyLoadPicture c8_backend "a" true).1.w = 0 ∧
     (lazyLoadPicture c8_backend "a" true).1.h = 0 ∧
     (lazyLoadPicture c8_backend "a" true).2.loadCount = 0 ∧
     (lazyLoadPicture c8_backend "a" true).2.loadReqs = []) ∧
    ((lazyLoadPicture c8_backend "b" true).1.w = 32 ∧
     (lazyLoadPicture c8_backend "b" true).2.loadCount = 1) := by
  refine ⟨⟨?_, ?_, ?_, ?_⟩, ?_, ?_⟩ <;> rfl

/-- Claim C8 as amended: `lazyLoadPicture` falls back to the temporary
load-and-immediately-unload probe exactly when the sidecar file cannot be
opened; any sidecar that opens — well-formed or not — is parsed with
`atoi` over the fixed 10-byte buffer (malformed data yielding whatever
`atoi` returns, such as 0), with no probe and no backend activity. -/
theorem claim_C8_amended :
    (∀ (s : Backend) (path : String) (content : List Nat), path ≠ "" →
       s.files (path ++ ".size") = some content →
       lazyLoadPicture s path true =
         ({ inited := true, w := c_atoi (s_sizeBuf content s.junk)
          , h := c_atoi ((s_sizeBuf content s.junk).drop 5)
          , l := { path := path, lazyLoaded := true } }, s)) ∧
    (∀ (s : Backend) (path : String), path ≠ "" →
       s.files (path ++ ".size") = none →
       lazyLoadPicture s path true =
         (lazyUnLoad (lazyLoad (s_pLogWarning s)
            { inited := true, l := { path := path, lazyLoaded := true } }).1,
          (lazyLoad (s_pLogWarning s)
            { inited := true, l := { path := path, lazyLoaded := true } }).2)) := by
  constructor
  · intro s path content hpath hfile
    simp [lazyLoadPicture, hpath, hfile]
  · intro s path hpath hfile
    simp [lazyLoadPicture, hpath, hfile]

theorem claim_C8_amended_witness :
    lazyLoadPicture c8_backend "a" true =
      ({ inited := true, w := c_atoi (s_sizeBuf (List.replicate 10 88) c8_backend.junk)
       , h := c_atoi ((s_sizeBuf (List.replicate 10 88) c8_backend.junk).drop 5)
       , l := { path := "a", lazyLoaded := true } }, c8_backend) :=
  claim_C8_amended.1 c8_backend "a" (List.replicate 10 88) (by decide) rfl

end XRender

namespace XRender

lemma flipwrap_spec (half y : Int) :
    ∃ m : Nat, m ≤ 3 ∧ s_flipWrap 3 half y 0 = (y - m * half, m) ∧
      (m < 3 → y - m * half < half) := by
  by_cases c1 : half ≤ y
  · by_cases c2 : half ≤ y - half
    · by_cases c3 : half ≤ y - half - half
      · refine ⟨3, by omega, ?_, by omega⟩
        simp only [s_flipWrap, if_pos c1, if_pos c2, if_pos c3, Prod.mk.injEq]
        exact ⟨by push_cast; ring, by trivial⟩
      · refine ⟨2, by omega, ?_, by omega⟩
        simp only [s_flipWrap, if_pos c1, if_pos c2, if_neg c3, Prod.mk.injEq]
        exact ⟨by push_cast; ring, by trivial⟩
    · refine ⟨1, by omega, ?_, by omega⟩
      simp only [s_flipWrap, if_pos c1, if_neg c2, Prod.mk.injEq]
      exact ⟨by push_cast; ring, by trivial⟩
  · refine ⟨0, by omega, ?_, by omega⟩
    simp only [s_flipWrap, if_neg c1, Prod.mk.injEq]
    exact ⟨by push_cast; ring, by trivial⟩

lemma flipwrap_at_half (half : Int) (h1 : 1 ≤ half) :
    s_flipWrap 3 half half 0 = (0, 1) := by
  have e2 : ¬ half ≤ half - half := by omega
  simp only [s_flipWrap, if_pos (le_refl half), if_neg e2, Prod.mk.injEq]
  exact ⟨by omega, by trivial⟩

lemma flipwrap_at_two_half (half : Int) (h1 : 1 ≤ half) :
    s_flipWrap 3 half (2 * half) 0 = (0, 2) := by
  have e1 : half ≤ 2 * half := by omega
  have e2 : half ≤ 2 * half - half := by omega
  have e3 : ¬ half ≤ 2 * half - half - half := by omega
  simp only [s_flipWrap, if_pos e1, if_pos e2, if_neg e3, Prod.mk.injEq]
  exact ⟨by omega, by trivial⟩

lemma tdiv_half_pos (h : Int) (hh : 2 ≤ h) : 1 ≤ Int.tdiv h 2 := by
  rw [Int.tdiv_eq_ediv (by omega) (by omega)]
  omega

def c1_tx : StdPicture :=
  { inited := true, w := 100, h := 100
  , d := { texture := some 1, image := 1 } }

def c1_backend : Backend :=
  { loads := [], files := fun _ => none, junk := []
  , freeFn := fun _ => 9000000, evictCount := 0, loadCount := 0
  , warnCount := 0, loadReqs := [] }

/-- Claim C1 counterexample: on a 100-pixel-high inited texture, a blit
with source Y equal to two half-heights (ySrc = 100 = 2 x 50) dispatches
with flip bits `0 ^^^ 2 = 2`, while the `Y = 0` blit dispatches with flip
bits 0 — so two half-heights does NOT restore the original orientation,
it toggles the other flip bit. -/
theorem claim_C1_counterexample :
    s_texDraws (minport_RenderTexturePrivate c1_backend c1_tx
        0 0 10 10 0 100 10 10 0 none 0 1 1 1 1).2.2 =
      [⟨1, 0, 0, 10, 10, 0, 0, 10, 10, 2, 1, 1, 1, 1⟩] ∧
    s_texDraws (minport_RenderTexturePrivate c1_backend c1_tx
        0 0 10 10 0 0 10 10 0 none 0 1 1 1 1).2.2 =
      [⟨1, 0, 0, 10, 10, 0, 0, 10, 10, 0, 1, 1, 1, 1⟩] ∧
    (2 : Nat) ≠ 0 := by
  refine ⟨rfl, rfl, by decide⟩

/-- Claim C1 as amended: when the source Y offset is at least half the
texture's logical height, the dispatcher reduces it modulo the half-height
(at most 3 reductions) and XORs the NUMBER of half-heights crossed into
the flip bits; a blit at one half-height therefore flips the output
relative to Y = 0 (`flip ^^^ 1`), while a blit at two half-heights does
not restore the original orientation but toggles the other flip bit
(`flip ^^^ 2 ≠ flip`). -/
theorem claim_C1_amended (h : Int) (flip : Nat) (hh : 2 ≤ h) :
    (∀ ySrc : Int, ∃ m : Nat, m ≤ 3 ∧
       s_autoFlipQuirk h ySrc flip = (ySrc - m * Int.tdiv h 2, flip ^^^ m) ∧
       (m < 3 → ySrc - m * Int.tdiv h 2 < Int.tdiv h 2)) ∧
    s_autoFlipQuirk h (Int.tdiv h 2) flip = (0, flip ^^^ 1) ∧
    s_autoFlipQuirk h (2 * Int.tdiv h 2) flip = (0, flip ^^^ 2) ∧
    flip ^^^ 1 ≠ flip ∧ flip ^^^ 2 ≠ flip := by
  have hhalf := tdiv_half_pos h hh
  refine ⟨?_, ?_, ?_, xor_one_ne flip, xor_two_ne flip⟩
  · intro ySrc
    obtain ⟨m, hm1, hm2, hm3⟩ := flipwrap_spec (Int.tdiv h 2) ySrc
    exact ⟨m, hm1, by rw [s_autoFlipQuirk, hm2], hm3⟩
  · rw [s_autoFlipQuirk, flipwrap_at_half _ hhalf]
  · rw [s_autoFlipQuirk, flipwrap_at_two_half _ hhalf]

theorem claim_C1_amended_witness :
    s_autoFlipQuirk 100 (Int.tdiv 100 2) 1 = (0, 1 ^^^ 1) ∧
    s_autoFlipQuirk 100 (2 * Int.tdiv 100 2) 1 = (0, 1 ^^^ 2) := by
  have h := claim_C1_amended 100 1 (by decide)
  exact ⟨h.2.1, h.2.2.1⟩

end XRender

namespace XRender

/-- Claim C3: a sprite blit whose source rectangle straddles the 1024-row
band boundary issues exactly two backend draw calls — the portion below
the boundary from band 1 and the portion above from band 2 — whose
destination heights sum exactly to the requested destination height; if
the second band's texture is absent that portion is skipped with no draw
call and no error, and a blit on a resource with no resident texture at
all dispatches nothing (the dispatcher never aborts). -/
theorem claim_C3_band_split :
    (∀ (s : Backend) (tx : StdPicture)
        (xDst yDst wDst hDst xSrc ySrc wSrc hSrc rotA : Int)
        (center : Option (Int × Int)) (flip : Nat) (red green blue alpha : ℚ) (t : Nat),
      tx.inited = true → tx.d.texture = some t →
      ySrc < Int.tdiv tx.h 2 →
      ySrc < 1024 → 1024 < ySrc + hSrc → ySrc + hSrc ≤ 2048 →
      (tx.d.texture2.isSome = true →
         (s_texDraws (minport_RenderTexturePrivate s tx xDst yDst wDst hDst xSrc ySrc wSrc hSrc
             rotA center flip red green blue alpha).2.2).map (fun d => d.img) =
           [tx.d.image, tx.d.image2] ∧
         (s_texDraws (minport_RenderTexturePrivate s tx xDst yDst wDst hDst xSrc ySrc wSrc hSrc
             rotA center flip red green blue alpha).2.2).map (fun d => d.hDst) =
           [Int.tdiv ((1024 - ySrc) * hDst) hSrc,
            hDst - Int.tdiv ((1024 - ySrc) * hDst) hSrc] ∧
         (s_texDraws (minport_RenderTexturePrivate s tx xDst yDst wDst hDst xSrc ySrc wSrc hSrc
             rotA center flip red green blue alpha).2.2).map (fun d => d.ySrc) =
           [ySrc, 0] ∧
         (s_texDraws (minport_RenderTexturePrivate s tx xDst yDst wDst hDst xSrc ySrc wSrc hSrc
             rotA center flip red green blue alpha).2.2).map (fun d => d.hSrc) =
           [1024 - ySrc, hSrc - (1024 - ySrc)] ∧
         Int.tdiv ((1024 - ySrc) * hDst) hSrc +
           (hDst - Int.tdiv ((1024 - ySrc) * hDst) hSrc) = hDst) ∧
      (tx.d.texture2 = none →
         (s_texDraws (minport_RenderTexturePrivate s tx xDst yDst wDst hDst xSrc ySrc wSrc hSrc
             rotA center flip red green blue alpha).2.2).map (fun d => d.img) =
           [tx.d.image] ∧
         (s_texDraws (minport_RenderTexturePrivate s tx xDst yDst wDst hDst xSrc ySrc wSrc hSrc
             rotA center flip red green blue alpha).2.2).map (fun d => d.hDst) =
           [Int.tdiv ((1024 - ySrc) * hDst) hSrc])) ∧
    (∀ (s : Backend) (tx : StdPicture)
        (xDst yDst wDst hDst xSrc ySrc wSrc hSrc rotA : Int)
        (center : Option (Int × Int)) (flip : Nat) (red green blue alpha : ℚ),
      tx.d.texture = none → tx.l.lazyLoaded = false →
      (minport_RenderTexturePrivate s tx xDst yDst wDst hDst xSrc ySrc wSrc hSrc
          rotA center flip red green blue alpha).2.2 = []) := by
  constructor
  · intro s tx xDst yDst wDst hDst xSrc ySrc wSrc hSrc rotA center flip red green blue alpha t
      hinit htex hyh hb1 hb2 hb3
    have hq : s_flipWrap 3 (Int.tdiv tx.h 2) ySrc 0 = (ySrc, 0) := by
      simp only [s_flipWrap, if_neg (by omega : ¬ Int.tdiv tx.h 2 ≤ ySrc)]
    constructor
    · intro h2
      by_cases hr : rotA = 0 <;>
        simp [minport_RenderTexturePrivate, hinit, htex, hr, s_autoFlipQuirk, hq,
          s_bandDraws, s_splitDraw, s_singleDraw, s_texDraws, h2,
          if_pos (by omega : ySrc + hSrc > 1024), if_neg (by omega : ¬ ySrc + hSrc > 2048),
          if_pos hb1]
    · intro h2
      by_cases hr : rotA = 0 <;>
        simp [minport_RenderTexturePrivate, hinit, htex, hr, s_autoFlipQuirk, hq,
          s_bandDraws, s_splitDraw, s_singleDraw, s_texDraws, h2,
          if_pos (by omega : ySrc + hSrc > 1024), if_neg (by omega : ¬ ySrc + hSrc > 2048),
          if_pos hb1]
  · intro s tx xDst yDst wDst hDst xSrc ySrc wSrc hSrc rotA center flip red green blue alpha
      htex hlazy
    by_cases hi : tx.inited <;>
      simp [minport_RenderTexturePrivate, hi, htex, hlazy]

def c3_tx : StdPicture :=
  { inited := true, w := 500, h := 2100
  , d := { texture := some 1, image := 1, texture2 := some 2, image2 := 2 } }

def c3_backend : Backend :=
  { loads := [], files := fun _ => none, junk := []
  , freeFn := fun _ => 9000000, evictCount := 0, loadCount := 0
  , warnCount := 0, loadReqs := [] }

theorem claim_C3_witness :
    (s_texDraws (minport_RenderTexturePrivate c3_backend c3_tx
        5 6 50 100 0 1000 50 200 0 none 0 1 1 1 1).2.2).map (fun d => d.hDst) =
      [Int.tdiv ((1024 - 1000) * 100) 200, 100 - Int.tdiv ((1024 - 1000) * 100) 200] ∧
    Int.tdiv ((1024 - 1000) * 100) 200 + (100 - Int.tdiv ((1024 - 1000) * 100) 200) = 100 := by
  have h := (claim_C3_band_split.1 c3_backend c3_tx 5 6 50 100 0 1000 50 200 0 none 0
    1 1 1 1 1 rfl rfl (by decide) (by decide) (by decide) (by decide)).1 rfl
  exact ⟨h.2.1, h.2.2.2.2⟩

end XRender

namespace XRender

/-- Claim C6: every target-selection call made while the frame flag is
down implicitly begins a frame first — raising the flag, with the
begin-frame event sequence (clearing the active composition layers and
the bottom screen) as a prefix of the call's events; `repaint` outside a
frame is a complete no-op (state unchanged, nothing drawn); and the frame
counter advances exactly at the in-frame-to-idle transition inside
`repaint`, every other modelled operation preserving it. -/
theorem claim_C6_frame_state_machine :
    (∀ st : RState, st.g_in_frame = false →
       (s_ensureInFrame st).1.g_in_frame = true ∧
       (s_ensureInFrame st).1.s_current_frame = st.s_current_frame ∧
       Ev.frameBegin ∈ (s_ensureInFrame st).2 ∧
       Ev.targetClear Target.bottom ∈ (s_ensureInFrame st).2 ∧
       Ev.targetClear (Target.layer 0) ∈ (s_ensureInFrame st).2 ∧
       (st.s_single_layer_mode = false →
          ∀ l, l < 4 → Ev.targetClear (Target.layer l) ∈ (s_ensureInFrame st).2)) ∧
    (∀ st : RState, st.g_in_frame = true → s_ensureInFrame st = (st, [])) ∧
    (∀ st : RState, st.g_in_frame = false →
       (setTargetTexture st).1.g_in_frame = true ∧
       (setTargetMainScreen st).1.g_in_frame = true ∧
       (setTargetSubScreen st).1.g_in_frame = true ∧
       (∀ l : Nat, (setTargetLayer st l).1.g_in_frame = true) ∧
       (∃ st3 r1, setTargetTexture st = (st3, (s_ensureInFrame st).2 ++ r1)) ∧
       (∃ st3 r2, setTargetMainScreen st = (st3, (s_ensureInFrame st).2 ++ r2)) ∧
       (∃ st3 r3, setTargetSubScreen st = (st3, (s_ensureInFrame st).2 ++ r3)) ∧
       (∀ l : Nat, ∃ st3 r4, setTargetLayer st l = (st3, (s_ensureInFrame st).2 ++ r4))) ∧
    (∀ (st : RState) (inp : RInputs), st.g_in_frame = false → repaint st inp = (st, [])) ∧
    (∀ (st : RState) (inp : RInputs), st.g_in_frame = true →
       (repaint st inp).1.s_current_frame = st.s_current_frame + 1 ∧
       (repaint st inp).1.g_in_frame = false) ∧
    (∀ (st : RState) (l : Nat),
       (s_ensureInFrame st).1.s_current_frame = st.s_current_frame ∧
       (setTargetTexture st).1.s_current_frame = st.s_current_frame ∧
       (setTargetMainScreen st).1.s_current_frame = st.s_current_frame ∧
       (setTargetSubScreen st).1.s_current_frame = st.s_current_frame ∧
       (setTargetLayer st l).1.s_current_frame = st.s_current_frame ∧
       clearBuffer st = (st, (clearBuffer st).2)) := by
  refine ⟨?_, ?_, ?_, ?_, ?_, ?_⟩
  · intro st h
    refine ⟨?_, ?_, ?_, ?_, ?_, ?_⟩
    · simp [s_ensureInFrame, h]
    · simp [s_ensureInFrame, h]
    · simp [s_ensureInFrame, h]
    · by_cases hs : st.s_single_layer_mode <;> simp [s_ensureInFrame, h, s_layerLoop, hs]
    · by_cases hs : st.s_single_layer_mode <;> simp [s_ensureInFrame, h, s_layerLoop, hs]
    · intro hs l hl
      interval_cases l <;> simp [s_ensureInFrame, h, s_layerLoop, hs]
  · intro st h
    simp [s_ensureInFrame, h]
  · intro st h
    rcases e : s_ensureInFrame st with ⟨st2, evs⟩
    have hflag : st2.g_in_frame = true := by
      have := congrArg Prod.fst e
      simp [s_ensureInFrame, h] at this
      rw [← this]
    refine ⟨?_, ?_, ?_, ?_, ?_, ?_, ?_, ?_⟩
    · simp [setTargetTexture, e, hflag]
    · simp [setTargetMainScreen, e, hflag]
    · simp [setTargetSubScreen, e, hflag]
    · intro l
      simp [setTargetLayer, e, hflag]
    · exact ⟨_, _, by rw [setTargetTexture, e]⟩
    · exact ⟨_, _, by rw [setTargetMainScreen, e]⟩
    · exact ⟨_, _, by rw [setTargetSubScreen, e]⟩
    · intro l
      exact ⟨_, _, by rw [setTargetLayer, e]⟩
  · intro st inp h
    simp [repaint, h]
  · intro st inp h
    constructor <;> simp [repaint, h]
  · intro st l
    rcases e : s_ensureInFrame st with ⟨st2, evs⟩
    have hcf : st2.s_current_frame = st.s_current_frame := by
      by_cases h : st.g_in_frame <;>
        · have := congrArg Prod.fst e
          simp [s_ensureInFrame, h] at this
          rw [← this]
    refine ⟨?_, ?_, ?_, ?_, ?_, ?_⟩ <;>
      simp [setTargetTexture, setTargetMainScreen, setTargetSubScreen, setTargetLayer,
        clearBuffer, e, hcf]
    by_cases hb : st.g_in_frame = false <;> simp [hb]

def c6_st : RState :=
  { s_current_frame := 7, s_depth_slider := 0, g_in_frame := false
  , g_screen_swapped := false, s_single_layer_mode := false
  , s_tex_show_w := 320, s_tex_h := 240, s_cur_target := none }

def c6_inp : RInputs :=
  { slider := 0, LevelEditor := false, MagicHand := false, editorActive := false
  , phys_x := 0, phys_y := 0, phys_w := 400, phys_h := 240 }

theorem claim_C6_witness :
    (s_ensureInFrame c6_st).1.g_in_frame = true ∧
    repaint c6_st c6_inp = (c6_st, []) ∧
    (repaint { c6_st with g_in_frame := true } c6_inp).1.s_current_frame = 7 + 1 := by
  refine ⟨(claim_C6_frame_state_machine.1 c6_st rfl).1,
    claim_C6_frame_state_machine.2.2.2.1 c6_st c6_inp rfl,
    (claim_C6_frame_state_machine.2.2.2.2.1 { c6_st with g_in_frame := true } c6_inp rfl).1⟩

end XRender

namespace XRender

/-- Claim C2: inside a frame with no screen-swap or editor branch
applying, `repaint` composites onto exactly one physical target (the top
screen) with zero horizontal depth offset whenever the depth slider is at
most 0.05 or single-layer mode is on; otherwise it composites onto both
the top and the right-eye targets, each layer 0..3 offset by the
`shift_i` table — the multipliers {1, 0.4, 0, -0.4} times the fixed base
shift — scaled by the slider, the two targets' offsets negated relative
to each other, and layer 2's offset zero on both. -/
theorem claim_C2_repaint_composition (st : RState) (inp : RInputs)
    (hin : st.g_in_frame = true) (hsw : st.g_screen_swapped = false)
    (hed : ¬(inp.LevelEditor = true ∧ inp.editorActive = false)) :
    ((inp.slider ≤ 1 / 20 ∨ st.s_single_layer_mode = true) →
       s_sceneTargets (repaint st inp).2 = [Target.top] ∧
       ∀ dr ∈ s_layerDraws (repaint st inp).2, dr.xSrc = 0) ∧
    (¬(inp.slider ≤ 1 / 20) → st.s_single_layer_mode = false →
       s_sceneTargets (repaint st inp).2 = [Target.top, Target.right] ∧
       s_layerDraws (repaint st inp).2 =
         ([0, 1, 2, 3].map fun l =>
           ⟨l, inp.phys_x, inp.phys_y, inp.phys_w, inp.phys_h,
            s_stereoTop inp.slider l, 0, st.s_tex_show_w, st.s_tex_h, 0, 1, 1, 1, 1⟩) ++
         ([0, 1, 2, 3].map fun l =>
           ⟨l, inp.phys_x, inp.phys_y, inp.phys_w, inp.phys_h,
            s_stereoRight inp.slider l, 0, st.s_tex_show_w, st.s_tex_h, 0, 1, 1, 1, 1⟩) ∧
       (∀ l : Nat, s_repaint_shift_i l = s_claimMultiplier l * (s_repaint_shift : ℚ)) ∧
       (∀ l : Nat, s_stereoTop inp.slider l - s_repaint_shift =
          -(s_stereoRight inp.slider l - s_repaint_shift)) ∧
       s_stereoTop inp.slider 2 = 0 ∧ s_stereoRight inp.slider 2 = 0) := by
  constructor
  · intro hcond
    have hor : (inp.slider ≤ (20 : ℚ)⁻¹ ∨ st.s_single_layer_mode = true) := by
      rcases hcond with hc | hs
      · exact Or.inl (by rwa [one_div] at hc)
      · exact Or.inr hs
    by_cases hs : st.s_single_layer_mode = true
    · constructor
      · simp [repaint, hin, hsw, hed, s_layerLoop, s_sceneTargets, s_compositeDraw, hs]
      · simp only [repaint, hin, hsw, hed, s_layerLoop, s_layerDraws, s_compositeDraw,
          s_repaint_shift, hs]
        simp [hed, hsw, s_layerDraws]
    · rcases hor with hc | hs2
      · constructor
        · simp [repaint, hin, hsw, hed, s_layerLoop, s_sceneTargets, s_compositeDraw, hs, hc]
        · simp [repaint, hin, hsw, hed, s_layerLoop, s_layerDraws, s_compositeDraw,
            s_repaint_shift, hs, hc]
      · exact absurd hs2 hs
  · intro hc hs
    have hc' : ¬ inp.slider ≤ (20 : ℚ)⁻¹ := by rw [← one_div]; exact hc
    refine ⟨?_, ?_, ?_, ?_, ?_, ?_⟩
    · simp [repaint, hin, hsw, hed, s_layerLoop, s_sceneTargets, s_compositeDraw, hs, hc']
    · simp [repaint, hin, hsw, hed, s_layerLoop, s_layerDraws, s_compositeDraw, hs, hc']
    · intro l
      match l with
      | 0 => simp [s_repaint_shift_i, s_claimMultiplier]
      | 1 => simp [s_repaint_shift_i, s_claimMultiplier, s_repaint_shift]
      | 2 => simp [s_repaint_shift_i, s_claimMultiplier]
      | n + 3 => simp [s_repaint_shift_i, s_claimMultiplier, s_repaint_shift]
    · intro l
      simp only [s_stereoTop, s_stereoRight]
      ring
    · simp [s_stereoTop, s_repaint_shift_i, c_truncInt, s_repaint_shift]
    · simp [s_stereoRight, s_repaint_shift_i, c_truncInt, s_repaint_shift]

def c2_st : RState :=
  { s_current_frame := 0, s_depth_slider := 0, g_in_frame := true
  , g_screen_swapped := false, s_single_layer_mode := false
  , s_tex_show_w := 320, s_tex_h := 240, s_cur_target := none }

def c2_inp : RInputs :=
  { slider := 3 / 10, LevelEditor := false, MagicHand := false, editorActive := false
  , phys_x := 0, phys_y := 0, phys_w := 400, phys_h := 240 }

theorem claim_C2_witness :
    s_sceneTargets (repaint c2_st { c2_inp with slider := 0 }).2 = [Target.top] ∧
    s_sceneTargets (repaint c2_st c2_inp).2 = [Target.top, Target.right] ∧
    s_stereoTop c2_inp.slider 2 = 0 ∧ s_stereoRight c2_inp.slider 2 = 0 := by
  have h1 := (claim_C2_repaint_composition c2_st { c2_inp with slider := 0 } rfl rfl
    (by simp [c2_inp])).1 (Or.inl (by norm_num))
  have h2 := (claim_C2_repaint_composition c2_st c2_inp rfl rfl
    (by simp [c2_inp])).2 (by norm_num [c2_inp]) rfl
  exact ⟨h1.1, h2.1, h2.2.2.2.2⟩

end XRender
